import Mathlib

/-!
Shallow embedding of the scene query and composition layer of SmallVCM
(src/scene.hxx).  The external collaborators included from the other headers
(math.hxx, geometry.hxx, camera.hxx, materials.hxx, lights.hxx) are not part
of the sources; they are modelled from the specification at their interface
boundary.  Machine single-precision floats are idealised as real numbers;
a null-pointer dereference is modelled by returning none.
-/

set_option autoImplicit false

/-- Modelled from the spec: the three-component vector type from the external
math header (math.hxx is not part of the sources). -/
@[ext]
structure Vec3 where
  x : ℝ
  y : ℝ
  z : ℝ

instance : Add Vec3 := ⟨fun a b => ⟨a.x + b.x, a.y + b.y, a.z + b.z⟩⟩

instance : Sub Vec3 := ⟨fun a b => ⟨a.x - b.x, a.y - b.y, a.z - b.z⟩⟩

/-- Component-wise scaling, written v * s in the C++ code. -/
instance : HMul Vec3 ℝ Vec3 := ⟨fun v s => ⟨v.x * s, v.y * s, v.z * s⟩⟩

/-- Modelled from the spec: the broadcast constructor Vec3f(a) of the external
math header. -/
def Vec3.rep (a : ℝ) : Vec3 := ⟨a, a, a⟩

/-- Modelled from the spec: squared Euclidean length (LenSqr of math.hxx). -/
def Vec3.lenSqr (v : Vec3) : ℝ := v.x * v.x + v.y * v.y + v.z * v.z

/-- Modelled from the spec: the two-component vector type of the external math
header. -/
structure Vec2 where
  x : ℝ
  y : ℝ

/-- Modelled from the spec: Sqr of the external math header, x squared. -/
def Sqr (x : ℝ) : ℝ := x * x

/-- Modelled from the spec: the fixed ray epsilon EPS_RAY of the external math
header — a small positive constant used to nudge ray origins and bounds away
from surfaces (the exact value is external to the core; the claims only use it
symbolically). -/
def EPS_RAY : ℝ := 1e-3

/-- Modelled from the spec: the external math header's single-precision 1/pi
constant; its exact value is immaterial to every claim (it only scales a light
intensity). -/
def INV_PI_F : ℝ := 0.31830988618

/-- Modelled from the spec: a Ray has an origin point, a direction vector and a
minimum parametric distance tmin. -/
structure Ray where
  org : Vec3
  dir : Vec3
  tmin : ℝ

/-- Modelled from the spec: the Intersection Result record — distance along the
ray, material id of the hit surface, and light id (−1 when the surface is not a
registered emitter).  Additional surface data (normal, UV) produced by the
primitives is opaque to the scene layer and omitted. -/
structure Isect where
  dist : ℝ
  matID : Int
  lightID : Int

/-- Modelled from the spec: the default-constructed Intersection Result.  The
any-hit test consumes only the distance bound, so the defaults of the other
fields are immaterial; we use a large distance and −1 ids. -/
def Isect.initial : Isect := { dist := 1e36, matID := -1, lightID := -1 }

/-- Modelled from the spec: the Material record — plain numeric fields
(diffuse/phong/mirror reflectance vectors, glossiness scalar,
index-of-refraction scalar) that this core stores but never interprets. -/
structure Material where
  mDiffuseReflectance : Vec3
  mPhongReflectance : Vec3
  mMirrorReflectance : Vec3
  mGlossiness : ℝ
  mIOR : ℝ

/-- Modelled from the spec: Material::Reset of the external materials header
restores the default field values (zero reflectances; the scalar defaults are
external and immaterial to the claims). -/
def Material.reset : Material :=
  { mDiffuseReflectance := Vec3.rep 0
    mPhongReflectance := Vec3.rep 0
    mMirrorReflectance := Vec3.rep 0
    mGlossiness := 1
    mIOR := -1 }

/-- Modelled from the spec: the external camera collaborator, stored opaquely
by the Scene; Setup records its parameters. -/
structure Camera where
  mPosition : Vec3
  mForward : Vec3
  mUp : Vec3
  mResolution : Vec2
  mHorizontalFOV : ℝ

/-- Modelled from the spec: Camera::Setup of the external camera header simply
records the given configuration. -/
def Camera.Setup (aPosition aForward aUp : Vec3) (aResolution : Vec2)
    (aHorizontalFOV : ℝ) : Camera :=
  { mPosition := aPosition
    mForward := aForward
    mUp := aUp
    mResolution := aResolution
    mHorizontalFOV := aHorizontalFOV }

/-- Modelled from the spec: the polymorphic light objects of the external
lights header, with the {area, point, directional, background} capability
sets; each constructor records the data the demo loader sets. -/
inductive AbstractLight where
  | area (p0 p1 p2 : Vec3) (mIntensity : Vec3)
  | directional (mDirection : Vec3) (mIntensity : Vec3)
  | point (mPosition : Vec3) (mIntensity : Vec3)
  | background (mScale : ℝ)

/-- Modelled from the spec: the concrete geometric primitives pushed by the
demo loader (triangle and sphere of the external geometry header), each tagged
with its material id; their intersection math is external to the core. -/
inductive GeomElem where
  | triangle (p0 p1 p2 : Vec3) (matID : Int)
  | sphere (center : Vec3) (radius : ℝ) (matID : Int)

/-- Modelled from the spec: the Geometry Aggregate contract (spec section 4.1),
for an aggregate of type G: a closest-hit query that populates the result
record only on a hit (so the caller's record is untouched on a miss), an
any-hit boolean query reading the distance bound from the passed record, and a
bounding-box grower mapping a running (min, max) pair to the expanded pair.
The concrete implementation lives in the external geometry header. -/
structure GeomSem (G : Type) where
  intersect : G → Ray → Isect → Option Isect
  intersectP : G → Ray → Isect → Bool
  growBBox : G → Vec3 × Vec3 → Vec3 × Vec3

/-- The scene bounding sphere record (declared in an external header; the
fields are exactly the ones scene.hxx writes). -/
structure SceneSphere where
  mSceneCenter : Vec3
  mSceneRadius : ℝ
  mInvSceneRadiusSqr : ℝ

/-- The Scene, parametric in the geometry aggregate type G.  mGeometry is an
optional aggregate: none models the NULL pointer the constructor installs.
mMaterial2Light models the std::map<int, int> as an association list with
unique keys.  mBackground stores the distinguished background light (in C++ an
aliasing non-owning pointer into mLights). -/
structure Scene (G : Type) where
  mGeometry : Option G
  mCamera : Camera
  mMaterials : List Material
  mLights : List AbstractLight
  mMaterial2Light : List (Int × Int)
  mSceneSphere : SceneSphere
  mBackground : Option AbstractLight

/-- Scene::Scene() : mGeometry(NULL), mBackground(NULL).  The vector and map
members are default-constructed empty; camera and scene sphere are not
initialised by the constructor (fixed defaults chosen here; no claim reads
them before they are assigned). -/
def Scene.init (G : Type) : Scene G :=
  { mGeometry := none
    mCamera := Camera.Setup ⟨0, 0, 0⟩ ⟨0, 0, 0⟩ ⟨0, 0, 0⟩ ⟨0, 0⟩ 0
    mMaterials := []
    mLights := []
    mMaterial2Light := []
    mSceneSphere := { mSceneCenter := ⟨0, 0, 0⟩, mSceneRadius := 0, mInvSceneRadiusSqr := 0 }
    mBackground := none }

/-- Scene::Intersect (scene.hxx lines 23–36): delegates to
mGeometry->Intersect; on a hit sets lightID to −1, then to the value found for
the hit material id in mMaterial2Light, and returns the hit flag together with
the result record.  Dereferencing the absent aggregate (none) is the C++ NULL
dereference and yields none; the const method never mutates the scene, which
the embedding reflects by not producing a scene. -/
def Scene.Intersect {G : Type} (sem : GeomSem G) (s : Scene G)
    (aRay : Ray) (oResult : Isect) : Option (Bool × Isect) :=
  match s.mGeometry with
  | none => none
  | some g =>
    match sem.intersect g aRay oResult with
    | some r =>
      some (true, { r with lightID := (s.mMaterial2Light.lookup r.matID).getD (-1) })
    | none => some (false, oResult)

/-- Scene::Occluded (scene.hxx lines 38–48): builds a ray with origin
aPoint + aDir * EPS_RAY, direction aDir and tmin 0, a default Isect whose dist
is set to aTMax − 2 * EPS_RAY, and returns mGeometry->IntersectP on them.
Dereferencing the absent aggregate yields none. -/
def Scene.Occluded {G : Type} (sem : GeomSem G) (s : Scene G)
    (aPoint aDir : Vec3) (aTMax : ℝ) : Option Bool :=
  match s.mGeometry with
  | none => none
  | some g =>
    some (sem.intersectP g
      { org := aPoint + aDir * EPS_RAY, dir := aDir, tmin := 0 }
      { Isect.initial with dist := aTMax - 2 * EPS_RAY })

/-- Scene::GetLightPtr (scene.hxx lines 61–65): clamps the index from above
with std::min<int>(aLightIdx, mLights.size() − 1) and indexes mLights.  An
index outside the vector bounds after the clamp is undefined behaviour,
modelled as none. -/
def Scene.GetLightPtr {G : Type} (s : Scene G) (aLightIdx : Int) : Option AbstractLight :=
  let i := min aLightIdx ((s.mLights.length : Int) - 1)
  if h : 0 ≤ i ∧ i < (s.mLights.length : Int) then
    some (s.mLights.get ⟨i.toNat, by omega⟩)
  else
    none

/-- std::map<int, int>::insert — inserts the pair only when the key is absent
(an existing key is never overwritten). -/
def mapInsert (m : List (Int × Int)) (k v : Int) : List (Int × Int) :=
  if (m.lookup k).isSome then m else m ++ [(k, v)]

namespace BoxMask

def LightCeiling : Nat := 1
def LightSun : Nat := 2
def LightPoint : Nat := 4
def LightBackground : Nat := 8
def BallLargeMirror : Nat := 16
def BallLargeGlass : Nat := 32
def BallMirror : Nat := 64
def BallGlass : Nat := 128
def Default : Nat := LightCeiling ||| BallMirror ||| BallGlass
def BothLargeBalls : Nat := BallLargeMirror ||| BallLargeGlass

end BoxMask

/-- The eight Cornell-box corner points p[0] … p[7] of scene.hxx lines
152–161. -/
def cbP0 : Vec3 := ⟨-1.27029, 1.30455, -1.28002⟩
def cbP1 : Vec3 := ⟨1.28975, 1.30455, -1.28002⟩
def cbP2 : Vec3 := ⟨1.28975, 1.30455, 1.28002⟩
def cbP3 : Vec3 := ⟨-1.27029, 1.30455, 1.28002⟩
def cbP4 : Vec3 := ⟨-1.27029, -1.25549, -1.28002⟩
def cbP5 : Vec3 := ⟨1.28975, -1.25549, -1.28002⟩
def cbP6 : Vec3 := ⟨1.28975, -1.25549, 1.28002⟩
def cbP7 : Vec3 := ⟨-1.27029, -1.25549, 1.28002⟩

/-- largeRadius of scene.hxx line 195. -/
def largeRadius : ℝ := 0.8

/-- The central large-ball center of scene.hxx line 196. -/
noncomputable def largeBallCenter : Vec3 :=
  (cbP0 + cbP1 + cbP4 + cbP5) * ((1 : ℝ) / 4) + ⟨0, 0, largeRadius⟩

/-- smallRadius of scene.hxx line 203. -/
def smallRadius : ℝ := 0.5

/-- leftWallCenter of scene.hxx line 204. -/
noncomputable def leftWallCenter : Vec3 := (cbP0 + cbP4) * ((1 : ℝ) / 2) + ⟨0, 0, smallRadius⟩

/-- rightWallCenter of scene.hxx line 205. -/
noncomputable def rightWallCenter : Vec3 := (cbP1 + cbP5) * ((1 : ℝ) / 2) + ⟨0, 0, smallRadius⟩

/-- xlen of scene.hxx line 206. -/
noncomputable def cbXlen : ℝ := rightWallCenter.x - leftWallCenter.x

/-- leftBallCenter of scene.hxx line 207. -/
noncomputable def leftBallCenter : Vec3 := leftWallCenter + ⟨2 * cbXlen / 7, 0, 0⟩

/-- rightBallCenter of scene.hxx line 208. -/
noncomputable def rightBallCenter : Vec3 := rightWallCenter - ⟨2 * cbXlen / 7, 0, 0⟩

/-- scene.hxx lines 94–98: when both mutually exclusive large-ball options are
requested, the BallLargeGlass bit is cleared (aBoxMask &= ~BallLargeGlass on a
32-bit uint, i.e. masking with 2^32 − 1 − 32 = 0xFFFFFFDF). -/
def cornellFixMask (m : Nat) : Nat :=
  if m &&& BoxMask.BothLargeBalls = BoxMask.BothLargeBalls then m &&& 0xFFFFFFDF else m

/-- scene.hxx line 96: the diagnostic notice printed exactly when both
large-ball options are requested (the printf output, collected as data). -/
def cornellMsgs (m : Nat) : List String :=
  if m &&& BoxMask.BothLargeBalls = BoxMask.BothLargeBalls then
    ["Cannot have both large balls, using mirror\n"]
  else
    []

/-- scene.hxx lines 112–149: the eight materials pushed onto mMaterials, in
push order — 0/1 the two emit-only light materials, 2 glossy white floor,
3 diffuse green left wall, 4 diffuse red right wall, 5 diffuse white back
wall, 6 mirror ball, 7 glass ball. -/
def cornellMaterials : List Material :=
  [ Material.reset
  , Material.reset
  , { Material.reset with
        mDiffuseReflectance := Vec3.rep 0.3
        mPhongReflectance := Vec3.rep 0.4
        mGlossiness := 10 }
  , { Material.reset with mDiffuseReflectance := ⟨0.156863, 0.803922, 0.172549⟩ }
  , { Material.reset with mDiffuseReflectance := ⟨0.803922, 0.152941, 0.152941⟩ }
  , { Material.reset with mDiffuseReflectance := ⟨0.803922, 0.803922, 0.803922⟩ }
  , { Material.reset with mMirrorReflectance := Vec3.rep 1 }
  , { Material.reset with mMirrorReflectance := Vec3.rep 1, mIOR := 1.6 } ]

/-- scene.hxx lines 163–212: the GeometryList contents in push order — floor,
back wall, ceiling (emitting materials 0/1 only with the ceiling light,
otherwise material 5), left wall, right wall, then the optional large and
small balls; m is the fixed-up box mask. -/
noncomputable def cornellGeometry (m : Nat) : List GeomElem :=
  [ GeomElem.triangle cbP0 cbP4 cbP5 5, GeomElem.triangle cbP5 cbP1 cbP0 5
  , GeomElem.triangle cbP0 cbP1 cbP2 5, GeomElem.triangle cbP2 cbP3 cbP0 5 ] ++
  (if m &&& BoxMask.LightCeiling ≠ 0 then
    [GeomElem.triangle cbP2 cbP6 cbP7 0, GeomElem.triangle cbP7 cbP3 cbP2 1]
  else
    [GeomElem.triangle cbP2 cbP6 cbP7 5, GeomElem.triangle cbP7 cbP3 cbP2 5]) ++
  [ GeomElem.triangle cbP3 cbP7 cbP4 3, GeomElem.triangle cbP4 cbP0 cbP3 3
  , GeomElem.triangle cbP1 cbP5 cbP6 4, GeomElem.triangle cbP6 cbP2 cbP1 4 ] ++
  (if m &&& BoxMask.BallLargeMirror ≠ 0 then
    [GeomElem.sphere largeBallCenter largeRadius 6] else []) ++
  (if m &&& BoxMask.BallLargeGlass ≠ 0 then
    [GeomElem.sphere largeBallCenter largeRadius 7] else []) ++
  (if m &&& BoxMask.BallMirror ≠ 0 then
    [GeomElem.sphere leftBallCenter smallRadius 6] else []) ++
  (if m &&& BoxMask.BallGlass ≠ 0 then
    [GeomElem.sphere rightBallCenter smallRadius 7] else [])

/-- scene.hxx lines 215–249, light part: with the ceiling light,
mLights.resize(2) followed by assigning slots 0 and 1 yields exactly the two
area lights whatever the prior contents; without it the prior lights are kept;
the optional sun, point and background lights are appended in that order. -/
def cornellLights (m : Nat) (prior : List AbstractLight) : List AbstractLight :=
  (if m &&& BoxMask.LightCeiling ≠ 0 then
    [ AbstractLight.area cbP2 cbP6 cbP7 (Vec3.rep 0.95492965)
    , AbstractLight.area cbP7 cbP3 cbP2 (Vec3.rep 0.95492965) ]
  else
    prior) ++
  (if m &&& BoxMask.LightSun ≠ 0 then
    [AbstractLight.directional ⟨-1, 1, -1⟩ ((⟨0.5, 0.2, 0⟩ : Vec3) * (1.5 : ℝ))] else []) ++
  (if m &&& BoxMask.LightPoint ≠ 0 then
    [AbstractLight.point ⟨0, -0.5, 1⟩ (Vec3.rep (70 * (INV_PI_F * 0.25)))] else []) ++
  (if m &&& BoxMask.LightBackground ≠ 0 then
    [AbstractLight.background 1] else [])

/-- scene.hxx lines 221 and 226: with the ceiling light, material ids 0 and 1
are mapped to light indices 0 and 1 via std::map::insert. -/
def cornellM2L (m : Nat) (prior : List (Int × Int)) : List (Int × Int) :=
  if m &&& BoxMask.LightCeiling ≠ 0 then
    mapInsert (mapInsert prior 0 0) 1 1
  else
    prior

/-- Scene::LoadCornellBox (scene.hxx lines 92–250) on a scene with geometry
type List GeomElem: resolves the large-ball conflict (mirror wins, with a
printed notice returned as the second component), sets up the camera, appends
the eight materials, replaces the geometry with the Cornell box list, and
installs the requested lights, the material-to-light map entries and the
background light. -/
noncomputable def Scene.LoadCornellBox (aResolution : Int × Int) (aBoxMask : Nat)
    (s : Scene (List GeomElem)) : Scene (List GeomElem) × List String :=
  let m := cornellFixMask aBoxMask
  ({ mGeometry := some (cornellGeometry m)
     mCamera := Camera.Setup
       ⟨-0.0439815, -4.12529, 0.222539⟩
       ⟨0.00688625, 0.998505, -0.0542161⟩
       ⟨3.73896e-4, 0.0542148, 0.998529⟩
       ⟨(aResolution.1 : ℝ), (aResolution.2 : ℝ)⟩ 45
     mMaterials := s.mMaterials ++ cornellMaterials
     mLights := cornellLights m s.mLights
     mMaterial2Light := cornellM2L m s.mMaterial2Light
     mSceneSphere := s.mSceneSphere
     mBackground :=
       if m &&& BoxMask.LightBackground ≠ 0 then
         some (AbstractLight.background 1)
       else
         s.mBackground }, cornellMsgs aBoxMask)

/-- The initial running bounds of Scene::BuildSceneSphere (scene.hxx lines
254–255): bboxMin = Vec3f(1e36f), bboxMax = Vec3f(−1e36f). -/
def bboxInit : Vec3 × Vec3 := (Vec3.rep 1e36, Vec3.rep (-1e36))

/-- Scene::BuildSceneSphere (scene.hxx lines 252–263): grows the initial
bounds through mGeometry->GrowBBox, then sets the scene-sphere center to the
box midpoint, the radius to sqrt of the squared diagonal length times 0.5, and
mInvSceneRadiusSqr to 1 / Sqr(radius) — with no guard on the divisor.
Dereferencing the absent aggregate yields none. -/
noncomputable def Scene.BuildSceneSphere {G : Type} (sem : GeomSem G)
    (s : Scene G) : Option (Scene G) :=
  match s.mGeometry with
  | none => none
  | some g =>
    let bb := sem.growBBox g bboxInit
    let radius2 := (bb.2 - bb.1).lenSqr
    let radius := Real.sqrt radius2 * 0.5
    some { s with mSceneSphere :=
      { mSceneCenter := (bb.2 + bb.1) * (0.5 : ℝ)
        mSceneRadius := radius
        mInvSceneRadiusSqr := 1 / Sqr radius } }

/-- A concrete aggregate semantics used to instantiate the quantified
theorems: never hits, never occludes, leaves the bounds unchanged. -/
def trivialGeomSem : GeomSem (List GeomElem) :=
  { intersect := fun _ _ _ => none
    intersectP := fun _ _ _ => false
    growBBox := fun _ bb => bb }

/-- A concrete aggregate semantics that always reports a hit at distance 5 on
material 5 and always occludes. -/
def hitSem : GeomSem (List GeomElem) :=
  { intersect := fun _ _ _ => some { dist := 5, matID := 5, lightID := -1 }
    intersectP := fun _ _ _ => true
    growBBox := fun _ bb => bb }

/-- A concrete aggregate semantics whose bounding box is the cube from
(−1,−1,−1) to (1,1,1). -/
def cubeSem : GeomSem (List GeomElem) :=
  { intersect := fun _ _ _ => none
    intersectP := fun _ _ _ => false
    growBBox := fun _ _ => (⟨-1, -1, -1⟩, ⟨1, 1, 1⟩) }

/-- A concrete aggregate semantics whose bounding box degenerates to the
single point (1,2,3). -/
def ptSem : GeomSem (List GeomElem) :=
  { intersect := fun _ _ _ => none
    intersectP := fun _ _ _ => false
    growBBox := fun _ _ => (⟨1, 2, 3⟩, ⟨1, 2, 3⟩) }

/-- A concrete aggregate semantics whose bounding box degenerates to the
origin. -/
def originSem : GeomSem (List GeomElem) :=
  { intersect := fun _ _ _ => none
    intersectP := fun _ _ _ => false
    growBBox := fun _ _ => (⟨0, 0, 0⟩, ⟨0, 0, 0⟩) }

/-- A concrete scene holding an (empty) geometry aggregate and a
material-to-light map sending material 5 to light 2. -/
def litScene : Scene (List GeomElem) :=
  { Scene.init (List GeomElem) with mGeometry := some [], mMaterial2Light := [(5, 2)] }

/-- A concrete scene with exactly one light. -/
def oneLightScene : Scene (List GeomElem) :=
  { Scene.init (List GeomElem) with mLights := [AbstractLight.point ⟨0, 0, 0⟩ (Vec3.rep 1)] }

/-- A concrete ray from (0,0,5) towards −z. -/
def cRay : Ray := { org := ⟨0, 0, 5⟩, dir := ⟨0, 0, -1⟩, tmin := 0 }

/-- The scene obtained from litScene by one BuildSceneSphere call (used to
exercise idempotence). -/
noncomputable def idemScene1 : Scene (List GeomElem) :=
  (Scene.BuildSceneSphere trivialGeomSem litScene).getD litScene

theorem Vec3.add_def (a b : Vec3) : a + b = ⟨a.x + b.x, a.y + b.y, a.z + b.z⟩ := rfl

theorem Vec3.sub_def (a b : Vec3) : a - b = ⟨a.x - b.x, a.y - b.y, a.z - b.z⟩ := rfl

theorem Vec3.smul_def (v : Vec3) (s : ℝ) : v * s = ⟨v.x * s, v.y * s, v.z * s⟩ := rfl

/-- C1 counterexample: the claim asserts that a freshly constructed Scene
(geometry pointer NULL) answers Intersect with no-hit and Occluded with false
without faulting.  On the code, both queries dereference mGeometry
unconditionally, so on the fresh scene the concrete queries below fault (the
embedding returns none, the model of the NULL dereference) instead of
producing the claimed no-hit / not-occluded answers. -/
theorem emptyScene_intersect_faults_concrete :
    Scene.Intersect trivialGeomSem (Scene.init (List GeomElem)) cRay Isect.initial = none ∧
    Scene.Occluded trivialGeomSem (Scene.init (List GeomElem)) ⟨0, 0, 0⟩ ⟨0, 0, 1⟩ 1 = none :=
  ⟨rfl, rfl⟩

/-- C1 (amended): a freshly constructed Scene holds no geometry aggregate and
the query paths dereference the aggregate unconditionally, so every
intersection and occlusion query on such a scene faults (returns none, the
model of the NULL dereference) rather than answering no-hit / not-occluded. -/
theorem emptyScene_query_faults (G : Type) (sem : GeomSem G) (aRay : Ray)
    (oResult : Isect) (p d : Vec3) (t : ℝ) :
    Scene.Intersect sem (Scene.init G) aRay oResult = none ∧
    Scene.Occluded sem (Scene.init G) p d t = none :=
  ⟨rfl, rfl⟩

/-- C2: on every ray on which Scene::Intersect reports a hit, the returned
light id is the value the Material→Light Index maps the hit material id to
when that id is a key, and exactly −1 when it is absent. -/
theorem intersect_lightID_mapping (G : Type) (sem : GeomSem G) (s : Scene G)
    (g : G) (aRay : Ray) (oResult r : Isect)
    (hg : s.mGeometry = some g) (hr : sem.intersect g aRay oResult = some r) :
    (∀ v : Int, s.mMaterial2Light.lookup r.matID = some v →
      (Scene.Intersect sem s aRay oResult).map (fun q => (q.1, q.2.lightID)) =
        some (true, v)) ∧
    (s.mMaterial2Light.lookup r.matID = none →
      (Scene.Intersect sem s aRay oResult).map (fun q => (q.1, q.2.lightID)) =
        some (true, -1)) := by
  refine ⟨fun v hv => ?_, fun hv => ?_⟩ <;>
    simp [Scene.Intersect, hg, hr, hv]

/-- C2 witness: a hit on material 5 in a scene whose index maps 5 to light 2
reports light id 2. -/
theorem intersect_lightID_mapping_witness :
    (Scene.Intersect hitSem litScene cRay Isect.initial).map
        (fun q => (q.1, q.2.lightID)) = some (true, 2) :=
  (intersect_lightID_mapping (List GeomElem) hitSem litScene [] cRay
    Isect.initial { dist := 5, matID := 5, lightID := -1 } rfl rfl).1 2 rfl

/-- C3: Scene::Occluded queries the aggregate's any-hit test with the ray
whose origin is the given point offset along the direction by EPS_RAY, whose
tmin is 0, and with the distance bound aTMax − 2·EPS_RAY, and returns exactly
that boolean result. -/
theorem occluded_delegates_epsilon (G : Type) (sem : GeomSem G) (s : Scene G)
    (g : G) (aPoint aDir : Vec3) (aTMax : ℝ) (hg : s.mGeometry = some g) :
    Scene.Occluded sem s aPoint aDir aTMax =
      some (sem.intersectP g
        { org := aPoint + aDir * EPS_RAY, dir := aDir, tmin := 0 }
        { Isect.initial with dist := aTMax - 2 * EPS_RAY }) := by
  simp [Scene.Occluded, hg]

/-- C3 witness: on a concrete scene whose aggregate always occludes, Occluded
returns exactly the any-hit answer true. -/
theorem occluded_delegates_epsilon_witness :
    Scene.Occluded hitSem litScene ⟨0, 0, 0⟩ ⟨0, 0, 1⟩ 10 = some true :=
  occluded_delegates_epsilon (List GeomElem) hitSem litScene [] ⟨0, 0, 0⟩ ⟨0, 0, 1⟩ 10 rfl

/-- C4 counterexample: the claim asserts that any out-of-range index, above or
below the range, returns a light from a non-empty collection.  GetLightPtr
only clamps from above (std::min), so the negative index −1 on a one-light
scene indexes the vector out of bounds (undefined behaviour, modelled none)
instead of returning a light. -/
theorem getLightPtr_negative_faults_concrete :
    Scene.GetLightPtr oneLightScene (-1) = none := rfl

/-- C4 (amended): GetLightPtr clamps the index only from above, to at most
count−1 — every index ≥ count−1 returns the same light as count−1 (so
GetLightPtr(count) and GetLightPtr(count+5) equal GetLightPtr(count−1), which
is a light of the collection) — while a negative index is not clamped and
faults instead of returning a light. -/
theorem getLightPtr_upper_clamp_only (G : Type) (s : Scene G)
    (h : 0 < s.mLights.length) :
    (∀ idx : Int, ((s.mLights.length : Int) - 1) ≤ idx →
      Scene.GetLightPtr s idx = Scene.GetLightPtr s ((s.mLights.length : Int) - 1)) ∧
    (Scene.GetLightPtr s ((s.mLights.length : Int) - 1)).isSome = true ∧
    (∀ idx : Int, idx < 0 → Scene.GetLightPtr s idx = none) := by
  have h0 : (0 : Int) ≤ (s.mLights.length : Int) - 1 := by
    have : (1 : Int) ≤ (s.mLights.length : Int) := by exact_mod_cast h
    omega
  refine ⟨fun idx hidx => ?_, ?_, fun idx hneg => ?_⟩
  · simp only [Scene.GetLightPtr, min_eq_right hidx, min_self]
  · simp only [Scene.GetLightPtr, min_self]
    rw [dif_pos ⟨h0, by omega⟩]
    rfl
  · have hle : idx ≤ (s.mLights.length : Int) - 1 := by omega
    simp only [Scene.GetLightPtr, min_eq_left hle]
    rw [dif_neg (by omega)]

/-- C4 witness: on a concrete one-light scene, indices 1 (= count) and
6 (= count + 5) return the same light as index 0 (= count − 1), which exists,
while index −3 faults. -/
theorem getLightPtr_upper_clamp_only_witness :
    Scene.GetLightPtr oneLightScene 1 = Scene.GetLightPtr oneLightScene 0 ∧
    Scene.GetLightPtr oneLightScene 6 = Scene.GetLightPtr oneLightScene 0 ∧
    (Scene.GetLightPtr oneLightScene 0).isSome = true ∧
    Scene.GetLightPtr oneLightScene (-3) = none :=
  ⟨(getLightPtr_upper_clamp_only (List GeomElem) oneLightScene (by decide)).1 1 (by decide),
   (getLightPtr_upper_clamp_only (List GeomElem) oneLightScene (by decide)).1 6 (by decide),
   (getLightPtr_upper_clamp_only (List GeomElem) oneLightScene (by decide)).2.1,
   (getLightPtr_upper_clamp_only (List GeomElem) oneLightScene (by decide)).2.2 (-3) (by decide)⟩

/-- C10: when the aggregate reports no hit, Scene::Intersect returns the hit
flag false together with the caller's intersection record unchanged — in
particular the light-id field keeps whatever value it held — and, being a
const query, never modifies the scene (reflected by the embedding's purity:
no scene is produced). -/
theorem intersect_miss_leaves_result_unchanged (G : Type) (sem : GeomSem G)
    (s : Scene G) (g : G) (aRay : Ray) (oResult : Isect)
    (hg : s.mGeometry = some g) (hm : sem.intersect g aRay oResult = none) :
    Scene.Intersect sem s aRay oResult = some (false, oResult) := by
  simp [Scene.Intersect, hg, hm]

/-- C10 witness: a concrete missing query returns false and the exact input
record. -/
theorem intersect_miss_leaves_result_unchanged_witness :
    Scene.Intersect trivialGeomSem litScene cRay Isect.initial =
      some (false, Isect.initial) :=
  intersect_miss_leaves_result_unchanged (List GeomElem) trivialGeomSem litScene []
    cRay Isect.initial rfl rfl

/-- C5: BuildSceneSphere sets the center to the midpoint of the bounding box
obtained via GrowBBox, the radius to half the diagonal length, and the
inverse-radius-squared field to 1 over the radius squared; and on the box from
(−1,−1,−1) to (1,1,1) this yields center (0,0,0) and radius √3. -/
theorem buildSceneSphere_formulas :
    (∀ (G : Type) (sem : GeomSem G) (s : Scene G) (g : G) (lo hi : Vec3),
      s.mGeometry = some g → sem.growBBox g bboxInit = (lo, hi) →
      Scene.BuildSceneSphere sem s = some { s with mSceneSphere :=
        { mSceneCenter := (hi + lo) * (0.5 : ℝ)
          mSceneRadius := Real.sqrt ((hi - lo).lenSqr) * 0.5
          mInvSceneRadiusSqr := 1 / Sqr (Real.sqrt ((hi - lo).lenSqr) * 0.5) } }) ∧
    (∀ (G : Type) (sem : GeomSem G) (s : Scene G) (g : G),
      s.mGeometry = some g →
      sem.growBBox g bboxInit = (⟨-1, -1, -1⟩, ⟨1, 1, 1⟩) →
      (Scene.BuildSceneSphere sem s).map
          (fun t => (t.mSceneSphere.mSceneCenter, t.mSceneSphere.mSceneRadius)) =
        some (⟨0, 0, 0⟩, Real.sqrt 3)) := by
  constructor
  · intro G sem s g lo hi hg hbb
    simp [Scene.BuildSceneSphere, hg, hbb]
  · intro G sem s g hg hbb
    simp [Scene.BuildSceneSphere, hg, hbb, Vec3.add_def, Vec3.sub_def,
      Vec3.smul_def, Vec3.lenSqr]
    norm_num
    rw [show (12 : ℝ) = 2 ^ 2 * 3 by norm_num, Real.sqrt_mul (by positivity),
      Real.sqrt_sq (by norm_num)]
    ring

/-- C5 witness: the concrete cube-bounded scene yields center (0,0,0) and
radius √3. -/
theorem buildSceneSphere_formulas_witness :
    (Scene.BuildSceneSphere cubeSem litScene).map
        (fun t => (t.mSceneSphere.mSceneCenter, t.mSceneSphere.mSceneRadius)) =
      some (⟨0, 0, 0⟩, Real.sqrt 3) :=
  buildSceneSphere_formulas.2 (List GeomElem) cubeSem litScene [] rfl rfl

/-- C6 counterexample: the claim asserts the division producing
mInvSceneRadiusSqr is explicitly protected against a zero radius.  On the
concrete scene whose bounding box degenerates to the single point (1,2,3),
BuildSceneSphere still completes with radius 0 and computes the field as
1 / Sqr 0 — the division is executed with a zero divisor (IEEE infinity in
the C++ float code), so no guard exists. -/
theorem buildSceneSphere_zero_divisor_concrete :
    (Scene.BuildSceneSphere ptSem litScene).map
        (fun t => (t.mSceneSphere.mSceneRadius, t.mSceneSphere.mInvSceneRadiusSqr)) =
      some (0, 1 / Sqr 0) := by
  simp [Scene.BuildSceneSphere, ptSem, litScene, Scene.init, Vec3.sub_def, Vec3.lenSqr]

/-- C6 (amended): BuildSceneSphere has no degenerate-bounds guard — whenever
the geometry's bounding box is a single point, the radius is 0 and
mInvSceneRadiusSqr is computed as the unguarded division 1 / Sqr 0 (IEEE
infinity in the C++ float code). -/
theorem buildSceneSphere_degenerate_unguarded (G : Type) (sem : GeomSem G)
    (s : Scene G) (g : G) (c : Vec3)
    (hg : s.mGeometry = some g) (hbb : sem.growBBox g bboxInit = (c, c)) :
    (Scene.BuildSceneSphere sem s).map
        (fun t => (t.mSceneSphere.mSceneRadius, t.mSceneSphere.mInvSceneRadiusSqr)) =
      some (0, 1 / Sqr 0) := by
  simp [Scene.BuildSceneSphere, hg, hbb, Vec3.sub_def, Vec3.lenSqr]

/-- C6 witness: the origin-point degenerate scene realises the unguarded
division. -/
theorem buildSceneSphere_degenerate_unguarded_witness :
    (Scene.BuildSceneSphere originSem litScene).map
        (fun t => (t.mSceneSphere.mSceneRadius, t.mSceneSphere.mInvSceneRadiusSqr)) =
      some (0, 1 / Sqr 0) :=
  buildSceneSphere_degenerate_unguarded (List GeomElem) originSem litScene []
    ⟨0, 0, 0⟩ rfl rfl

/-- C7: BuildSceneSphere is idempotent — a second call on the unchanged
geometry reproduces exactly the same scene sphere (the rebuilt scene is a
fixed point, so center and radius are identical). -/
theorem buildSceneSphere_idempotent (G : Type) (sem : GeomSem G)
    (s t : Scene G) (h : Scene.BuildSceneSphere sem s = some t) :
    Scene.BuildSceneSphere sem t = some t := by
  cases hg : s.mGeometry with
  | none => simp [Scene.BuildSceneSphere, hg] at h
  | some g =>
    simp only [Scene.BuildSceneSphere, hg, Option.some.injEq] at h
    subst h
    simp [Scene.BuildSceneSphere, hg]

/-- C7 witness: rebuilding the sphere of the once-built concrete scene leaves
it exactly fixed. -/
theorem buildSceneSphere_idempotent_witness :
    Scene.BuildSceneSphere trivialGeomSem idemScene1 = some idemScene1 :=
  buildSceneSphere_idempotent (List GeomElem) trivialGeomSem litScene idemScene1 rfl

theorem largeRadius_ne_smallRadius : largeRadius ≠ smallRadius := by
  norm_num [largeRadius, smallRadius]

/-- C8: after constructing the scene with LoadCornellBox from a freshly
constructed Scene, with any box mask, every value of the material-to-light
map is a valid index into the light collection, and the map's keys are
unique. -/
theorem material2Light_invariant (res : Int × Int) (mask : Nat) :
    (∀ kv ∈ ((Scene.LoadCornellBox res mask (Scene.init (List GeomElem))).1).mMaterial2Light,
      0 ≤ kv.2 ∧
        kv.2 < (((Scene.LoadCornellBox res mask (Scene.init (List GeomElem))).1).mLights.length : Int)) ∧
    ((((Scene.LoadCornellBox res mask (Scene.init (List GeomElem))).1).mMaterial2Light.map
        Prod.fst).Nodup) := by
  have hm2l : ((Scene.LoadCornellBox res mask (Scene.init (List GeomElem))).1).mMaterial2Light
      = cornellM2L (cornellFixMask mask) [] := rfl
  have hlights : ((Scene.LoadCornellBox res mask (Scene.init (List GeomElem))).1).mLights
      = cornellLights (cornellFixMask mask) [] := rfl
  rw [hm2l, hlights]
  by_cases hc : cornellFixMask mask &&& BoxMask.LightCeiling ≠ 0
  · have hmap : cornellM2L (cornellFixMask mask) [] = [(0, 0), (1, 1)] := by
      simp [cornellM2L, hc, mapInsert]
    have hlen : 2 ≤ (cornellLights (cornellFixMask mask) []).length := by
      simp only [cornellLights, hc, if_true, List.length_append]
      split_ifs <;> simp
    rw [hmap]
    refine ⟨fun kv hkv => ?_, by decide⟩
    have hlen' : (2 : Int) ≤ ((cornellLights (cornellFixMask mask) []).length : Int) := by
      exact_mod_cast hlen
    simp only [List.mem_cons, List.not_mem_nil, or_false] at hkv
    rcases hkv with rfl | rfl
    · exact ⟨by norm_num, by show (0 : Int) < _; omega⟩
    · exact ⟨by norm_num, by show (1 : Int) < _; omega⟩
  · have hmap : cornellM2L (cornellFixMask mask) [] = [] := by
      simp [cornellM2L, hc]
    rw [hmap]
    simp

/-- C8 witness: with the default box mask, the entry (0, 0) is in the map and
its value 0 is a valid light index. -/
theorem material2Light_invariant_witness :
    0 ≤ ((0, 0) : Int × Int).2 ∧
      ((0, 0) : Int × Int).2 <
        (((Scene.LoadCornellBox (256, 256) BoxMask.Default (Scene.init (List GeomElem))).1).mLights.length : Int) :=
  (material2Light_invariant (256, 256) BoxMask.Default).1 (0, 0) (by decide)

/-- C9: whenever both mutually exclusive large-ball options are requested,
LoadCornellBox emits exactly the diagnostic notice, completes scene setup
with a geometry aggregate installed, and resolves the conflict by precedence:
the large mirror ball (material 6) is present and the large glass ball
(material 7) is not. -/
theorem loadCornellBox_conflict_resolution (res : Int × Int) (mask : Nat)
    (s : Scene (List GeomElem))
    (h : mask &&& BoxMask.BothLargeBalls = BoxMask.BothLargeBalls) :
    (Scene.LoadCornellBox res mask s).2 = ["Cannot have both large balls, using mirror\n"] ∧
    ((Scene.LoadCornellBox res mask s).1).mGeometry.isSome = true ∧
    GeomElem.sphere largeBallCenter largeRadius 6 ∈
      ((Scene.LoadCornellBox res mask s).1).mGeometry.getD [] ∧
    GeomElem.sphere largeBallCenter largeRadius 7 ∉
      ((Scene.LoadCornellBox res mask s).1).mGeometry.getD [] := by
  have hfix : cornellFixMask mask = mask &&& 0xFFFFFFDF := by
    simp [cornellFixMask, h]
  have e1 : (0xFFFFFFDF : Nat) &&& BoxMask.BallLargeMirror = BoxMask.BallLargeMirror := by
    decide
  have e2 : BoxMask.BothLargeBalls &&& BoxMask.BallLargeMirror = BoxMask.BallLargeMirror := by
    decide
  have e3 : (0xFFFFFFDF : Nat) &&& BoxMask.BallLargeGlass = 0 := by decide
  have hmir : mask &&& BoxMask.BallLargeMirror = BoxMask.BallLargeMirror := by
    have := congrArg (fun x => x &&& BoxMask.BallLargeMirror) h
    simp only [Nat.and_assoc, e2] at this
    exact this
  have h16 : cornellFixMask mask &&& BoxMask.BallLargeMirror ≠ 0 := by
    rw [hfix, Nat.and_assoc, e1, hmir]
    decide
  have h32 : cornellFixMask mask &&& BoxMask.BallLargeGlass = 0 := by
    rw [hfix, Nat.and_assoc, e3, Nat.and_zero]
  refine ⟨by simp [Scene.LoadCornellBox, cornellMsgs, h], rfl, ?_, ?_⟩
  · show GeomElem.sphere largeBallCenter largeRadius 6 ∈ cornellGeometry (cornellFixMask mask)
    simp [cornellGeometry, List.mem_append, h16]
  · show GeomElem.sphere largeBallCenter largeRadius 7 ∉ cornellGeometry (cornellFixMask mask)
    by_cases hcl : cornellFixMask mask &&& BoxMask.LightCeiling ≠ 0 <;>
      by_cases hbm : cornellFixMask mask &&& BoxMask.BallMirror ≠ 0 <;>
        by_cases hbg : cornellFixMask mask &&& BoxMask.BallGlass ≠ 0 <;>
          simp [cornellGeometry, List.mem_append, h16, h32, hcl, hbm, hbg,
            GeomElem.sphere.injEq, largeRadius_ne_smallRadius]

/-- C9 witness: with the box mask requesting exactly both large balls, the
notice is printed, setup completes, the large mirror ball is present and the
large glass ball is absent. -/
theorem loadCornellBox_conflict_resolution_witness :
    (Scene.LoadCornellBox (128, 128) 48 (Scene.init (List GeomElem))).2 =
      ["Cannot have both large balls, using mirror\n"] ∧
    ((Scene.LoadCornellBox (128, 128) 48 (Scene.init (List GeomElem))).1).mGeometry.isSome = true ∧
    GeomElem.sphere largeBallCenter largeRadius 6 ∈
      ((Scene.LoadCornellBox (128, 128) 48 (Scene.init (List GeomElem))).1).mGeometry.getD [] ∧
    GeomElem.sphere largeBallCenter largeRadius 7 ∉
      ((Scene.LoadCornellBox (128, 128) 48 (Scene.init (List GeomElem))).1).mGeometry.getD [] :=
  loadCornellBox_conflict_resolution (128, 128) 48 (Scene.init (List GeomElem)) (by decide)
